import Mathlib

/-
Shallow embedding of the monitoring layer of the cats-and-dogs service:
src/monitoring/discord_notifier.py and src/monitoring/prometheus_metrics.py.

Modelling conventions:
- Python float arguments are modelled as rationals; the format specifiers
  used by the code (.2%, .1f, .0f and str of a float) are modelled over the
  rationals with round-half-to-even, matching Python rounding.
- The outbound HTTP transport of requests.post is an explicit oracle
  parameter: a response with some status code, or a failure before any
  response arrives (connection error, timeout).
- os.getenv and the two datetime reads are parameters of the corresponding
  functions.
-/

namespace CatsDogs

/-- Round a rational to the nearest integer, ties to the even integer
(banker rounding, as Python numeric formatting rounds). -/
def roundHalfEven (q : ℚ) : Int :=
  let f := ⌊q⌋
  let frac := q - (f : ℚ)
  if frac < 1/2 then f
  else if 1/2 < frac then f + 1
  else if f % 2 = 0 then f
  else f + 1

/-- Left-pad a digit string with zeros to length d. -/
def padLeft0 (d : Nat) (s : String) : String :=
  String.mk (List.replicate (d - s.length) '0') ++ s

/-- Python fixed-point format of a rational with d decimal places. -/
def formatFixed (d : Nat) (q : ℚ) : String :=
  let n := roundHalfEven (q * (10 : ℚ) ^ d)
  let sign := if n < 0 then "-" else ""
  let a := n.natAbs
  if d = 0 then sign ++ toString a
  else sign ++ toString (a / 10 ^ d) ++ "." ++ padLeft0 d (toString (a % 10 ^ d))

/-- Python percent format .2 of a rational: scale by 100, two decimal
places, then a percent sign. -/
def formatPercent2 (q : ℚ) : String :=
  formatFixed 2 (q * 100) ++ "%"

/-- Python str of a float, on the rational model: shortest exact decimal
rendering, with at least one fractional digit. -/
def pyStr (q : ℚ) : String :=
  match (List.range 51).find? (fun k => (q * (10 : ℚ) ^ k).den == 1) with
  | some 0 => toString q.num ++ ".0"
  | some k => formatFixed k q
  | none => toString q.num ++ "/" ++ toString q.den

/-- One field of a Discord embed, built from one metrics entry. -/
structure EmbedField where
  name : String
  value : String
  inline : Bool
deriving DecidableEq

/-- The rich-message object send_alert builds: title, description, color,
UTC timestamp, footer text and the optional fields list. -/
structure Embed where
  title : String
  description : String
  color : Nat
  timestamp : String
  footerText : String
  fields : Option (List EmbedField)
deriving DecidableEq

/-- The JSON document POSTed to the webhook: sender name plus embeds. -/
structure Payload where
  username : String
  embeds : List Embed
deriving DecidableEq

/-- Behaviour of the outbound POST: a response with some status code, or a
transport-level failure raised before any response. -/
inductive TransportBehavior where
  | response (status : Nat)
  | connectionError
  | timeout
deriving DecidableEq

/-- requests Response.raise_for_status raises HTTPError exactly for the
4xx and 5xx status codes. -/
def raiseForStatusRaises (status : Nat) : Bool :=
  decide (400 ≤ status ∧ status < 600)

/-- Whether the body of the try block raises under this transport
behaviour: requests.post itself raises on connection error or timeout, and
raise_for_status raises on a 4xx or 5xx response. -/
def TransportBehavior.raises : TransportBehavior → Bool
  | .response s => raiseForStatusRaises s
  | .connectionError => true
  | .timeout => true

/-- Display text of the caught exception, used in the diagnostic print. -/
def TransportBehavior.errText : TransportBehavior → String
  | .response s => "HTTP error " ++ toString s
  | .connectionError => "connection error"
  | .timeout => "timeout"

/-- The dispatcher object: the configured webhook URL and the enabled
flag computed from it at construction. -/
structure DiscordNotifier where
  webhook_url : Option String
  enabled : Bool
deriving DecidableEq

/-- Embedding of DiscordNotifier.__init__: the os.getenv result for
DISCORD_WEBHOOK_URL is the parameter; enabled is bool(webhook_url), true
exactly when the URL is present and non-empty. -/
def DiscordNotifier.init (url : Option String) : DiscordNotifier :=
  { webhook_url := url
    enabled := match url with
      | none => false
      | some s => s != "" }

/-- The colors dict of send_alert: severity name to Discord decimal color. -/
def colors : List (String × Nat) :=
  [("info", 3447003), ("warning", 16776960), ("error", 15158332), ("critical", 10038562)]

/-- Embedding of colors.get(level, 3447003): dict lookup with default. -/
def colorsGet (level : String) : Nat :=
  (colors.lookup level).getD 3447003

/-- The embed constructed by send_alert on an enabled dispatcher. The
datetime.utcnow().isoformat() timestamp is a parameter. A fields list is
attached only when the metrics mapping is truthy in Python, that is
present and non-empty; metric values reach this point as display strings,
on which str is the identity. -/
def buildEmbed (title message level utcNow : String)
    (metrics : Option (List (String × String))) : Embed :=
  let base : Embed :=
    { title := "🚨 " ++ title
      description := message
      color := colorsGet level
      timestamp := utcNow
      footerText := "CV Cats & Dogs Monitoring"
      fields := none }
  match metrics with
  | none => base
  | some m =>
      if m.isEmpty then base
      else { base with fields := some (m.map fun kv => ⟨kv.1, kv.2, true⟩) }

/-- Observable outcome of one send_alert call: the POSTs attempted with
their payloads, the local diagnostic prints, whether an exception escaped
to the caller, and the dispatcher object as left after the call. -/
structure SendOutcome where
  networkCalls : List Payload
  diagnostics : List String
  raised : Bool
  finalSelf : DiscordNotifier
deriving DecidableEq

/-- Embedding of DiscordNotifier.send_alert: silent early return when
disabled; otherwise build the embed and payload, attempt one POST, and
catch any transport exception, turning it into one diagnostic print. -/
def DiscordNotifier.send_alert (n : DiscordNotifier) (title message level : String)
    (metrics : Option (List (String × String))) (utcNow : String)
    (transport : TransportBehavior) : SendOutcome :=
  if !n.enabled then
    { networkCalls := [], diagnostics := [], raised := false, finalSelf := n }
  else
    let payload : Payload :=
      { username := "MLOps Bot"
        embeds := [buildEmbed title message level utcNow metrics] }
    if transport.raises then
      { networkCalls := [payload]
        diagnostics := ["❌ Failed to send Discord alert: " ++ transport.errText]
        raised := false
        finalSelf := n }
    else
      { networkCalls := [payload], diagnostics := [], raised := false, finalSelf := n }

/-- One recorded call to notifier.send_alert with the arguments passed. -/
structure AlertCall where
  title : String
  message : String
  level : String
  metrics : Option (List (String × String))
deriving DecidableEq

/-- Embedding of alert_model_degradation: one warning alert when
accuracy < threshold (the Python default for threshold is 0.85), with the
accuracy, threshold and gap rendered by the .2 percent format; no call
otherwise. -/
def alert_model_degradation (accuracy threshold : ℚ) : List AlertCall :=
  if accuracy < threshold then
    [{ title := "Model Performance Degradation"
       message := "Model accuracy (" ++ formatPercent2 accuracy ++
         ") dropped below threshold (" ++ formatPercent2 threshold ++ ")"
       level := "warning"
       metrics := some [("Current Accuracy", formatPercent2 accuracy),
                        ("Threshold", formatPercent2 threshold),
                        ("Gap", formatPercent2 (accuracy - threshold))] }]
  else []

/-- Embedding of alert_high_latency: one error alert when
latency_ms > threshold (the Python default for threshold is 2000), with
latency and threshold in .0f format and the slowdown ratio in .1f format
behind an x; no call otherwise. -/
def alert_high_latency (latency_ms threshold : ℚ) : List AlertCall :=
  if latency_ms > threshold then
    [{ title := "High Inference Latency"
       message := "Inference taking " ++ pyStr latency_ms ++
         "ms (threshold: " ++ pyStr threshold ++ "ms)"
       level := "error"
       metrics := some [("Latency", formatFixed 0 latency_ms ++ "ms"),
                        ("Threshold", formatFixed 0 threshold ++ "ms"),
                        ("Slowdown", "x" ++ formatFixed 1 (latency_ms / threshold))] }]
  else []

/-- Embedding of alert_database_disconnected: always one critical alert
with fixed Service, Impact and Action fields. -/
def alert_database_disconnected : List AlertCall :=
  [{ title := "Database Connection Lost"
     message := "PostgreSQL database is unreachable. All feedback storage is currently disabled."
     level := "critical"
     metrics := some [("Service", "PostgreSQL"),
                      ("Impact", "❌ Feedback storage offline"),
                      ("Action", "Check docker logs cv_postgres")] }]

/-- Embedding of alert_deployment_success: always one info alert; the
formatted local time from datetime.now().strftime is a parameter. -/
def alert_deployment_success (version localNow : String) : List AlertCall :=
  [{ title := "Deployment Successful"
     message := "Version " ++ version ++ " deployed successfully to production"
     level := "info"
     metrics := some [("Version", version),
                      ("Status", "✅ Running"),
                      ("Timestamp", localNow)] }]

/-- Embedding of alert_new_prediction: always one info alert, no metrics
argument, so metrics keeps its None default. -/
def alert_new_prediction : List AlertCall :=
  [{ title := "New project"
     message := "Le modèle a été utilisé pour une prediction"
     level := "info"
     metrics := none }]

/-- Kinds of prometheus_client instruments used by the module. -/
inductive MetricKind where
  | counter
  | histogram
  | gauge
deriving DecidableEq

/-- One prometheus_client instrument declaration: registered name, kind,
label names, and the bucket boundaries for a histogram. -/
structure Instrument where
  name : String
  kind : MetricKind
  labels : List String
  buckets : Option (List ℚ)
deriving DecidableEq

/-- Gauge cv_database_connected, declared at module load. -/
def database_status : Instrument :=
  { name := "cv_database_connected", kind := .gauge, labels := [], buckets := none }

/-- Counter cv_predictions_total, declared at module load. -/
def cv_predictions_total : Instrument :=
  { name := "cv_predictions_total", kind := .counter, labels := [], buckets := none }

/-- Counter cv_predictions_by_class_total with the label named label. -/
def cv_predictions_by_class_total : Instrument :=
  { name := "cv_predictions_by_class_total", kind := .counter, labels := ["label"], buckets := none }

/-- Histogram cv_prediction_latency_seconds with its fixed buckets. -/
def cv_prediction_latency_seconds : Instrument :=
  { name := "cv_prediction_latency_seconds", kind := .histogram, labels := []
    buckets := some [0.05, 0.1, 0.2, 0.5, 1, 2, 5] }

/-- Counter cv_feedback_negative_total with the label named label. -/
def cv_feedback_negative_total : Instrument :=
  { name := "cv_feedback_negative_total", kind := .counter, labels := ["label"], buckets := none }

/-- The instruments created at module initialization, in source order:
the gauge is declared first, the four custom metrics at the file end. -/
def moduleInstruments : List Instrument :=
  [database_status, cv_predictions_total, cv_predictions_by_class_total,
   cv_prediction_latency_seconds, cv_feedback_negative_total]

/-- Embedding of update_db_status: database_status.set(1 if is_connected
else 0). The previous gauge value is taken and the new one returned. -/
def update_db_status (is_connected : Bool) (_gauge : ℚ) : ℚ :=
  if is_connected then 1 else 0

/-! Helper lemmas for evaluating the rational formatting functions. -/

theorem roundHalfEven_intCast (n : ℤ) : roundHalfEven (n : ℚ) = n := by
  simp only [roundHalfEven, Int.floor_intCast, sub_self]
  norm_num

theorem formatFixed_eq (d : Nat) (q : ℚ) (n : ℤ) (h : q * (10 : ℚ) ^ d = (n : ℚ)) :
    formatFixed d q =
      (if n < 0 then "-" else "") ++
        (if d = 0 then toString n.natAbs
         else toString (n.natAbs / 10 ^ d) ++ "." ++ padLeft0 d (toString (n.natAbs % 10 ^ d))) := by
  rcases eq_or_ne d 0 with hd | hd
  · subst hd
    rw [pow_zero, mul_one] at h
    subst h
    simp [formatFixed, roundHalfEven_intCast, pow_zero, mul_one]
  · simp [formatFixed, h, roundHalfEven_intCast, hd, String.append_assoc]

theorem gap_str : formatPercent2 ((78 : ℚ) / 100 - 85 / 100) = "-7.00%" := by
  have h := formatFixed_eq 2 (((78 : ℚ) / 100 - 85 / 100) * 100) (-700) (by norm_num)
  unfold formatPercent2
  rw [h]
  decide

theorem ratio_str : "x" ++ formatFixed 1 ((3000 : ℚ) / 2000) = "x1.5" := by
  have h := formatFixed_eq 1 ((3000 : ℚ) / 2000) 15 (by norm_num)
  rw [h]
  decide

/-! Theorems settling the claims. -/

/-- C1: on an enabled dispatcher, send_alert returns normally for every
title, message, level and metrics mapping and for every behaviour of the
outbound transport; a transport failure never escapes to the caller and
surfaces only as the one local diagnostic print. -/
theorem send_alert_never_raises (n : DiscordNotifier) (title message level : String)
    (metrics : Option (List (String × String))) (utcNow : String) (t : TransportBehavior)
    (h : n.enabled = true) :
    (n.send_alert title message level metrics utcNow t).raised = false ∧
    (t.raises = true →
      (n.send_alert title message level metrics utcNow t).diagnostics =
        ["❌ Failed to send Discord alert: " ++ t.errText]) ∧
    (t.raises = false →
      (n.send_alert title message level metrics utcNow t).diagnostics = []) := by
  unfold DiscordNotifier.send_alert
  rw [h]
  cases ht : t.raises <;> simp [ht]

/-- C1 witness: a concrete enabled dispatcher under a connection error. -/
theorem send_alert_never_raises_witness :
    ((DiscordNotifier.init (some "https://discord.example/webhooks/1/abc")).send_alert
        "Model Performance Degradation" "accuracy dropped" "warning"
        (some [("Gap", "-7.00%")]) "2025-11-16T14:32:00" .connectionError).raised = false :=
  (send_alert_never_raises (DiscordNotifier.init (some "https://discord.example/webhooks/1/abc"))
    "Model Performance Degradation" "accuracy dropped" "warning"
    (some [("Gap", "-7.00%")]) "2025-11-16T14:32:00" .connectionError (by decide)).1

/-- C2: on a disabled dispatcher, send_alert returns immediately with no
network call, no diagnostic output, no exception, and the instance
unchanged, for every input. -/
theorem send_alert_disabled_noop (n : DiscordNotifier) (title message level : String)
    (metrics : Option (List (String × String))) (utcNow : String) (t : TransportBehavior)
    (h : n.enabled = false) :
    n.send_alert title message level metrics utcNow t =
      { networkCalls := [], diagnostics := [], raised := false, finalSelf := n } := by
  unfold DiscordNotifier.send_alert
  rw [h]
  simp

/-- C2 witness: an unconfigured dispatcher with empty strings and an empty
metrics mapping. -/
theorem send_alert_disabled_noop_witness :
    (DiscordNotifier.init none).send_alert "" "" "info" (some []) "" .timeout =
      { networkCalls := [], diagnostics := [], raised := false
        finalSelf := DiscordNotifier.init none } :=
  send_alert_disabled_noop (DiscordNotifier.init none) "" "" "info" (some []) "" .timeout
    (by decide)

theorem send_alert_networkCalls (n : DiscordNotifier) (title message level : String)
    (metrics : Option (List (String × String))) (utcNow : String) (t : TransportBehavior)
    (h : n.enabled = true) :
    (n.send_alert title message level metrics utcNow t).networkCalls =
      [{ username := "MLOps Bot", embeds := [buildEmbed title message level utcNow metrics] }] := by
  unfold DiscordNotifier.send_alert
  rw [h]
  cases ht : t.raises <;> simp [ht]

theorem buildEmbed_color (title message level utcNow : String)
    (metrics : Option (List (String × String))) :
    (buildEmbed title message level utcNow metrics).color = colorsGet level := by
  cases metrics with
  | none => rfl
  | some m => by_cases hm : m.isEmpty <;> simp [buildEmbed, hm]

/-- C3: alert_model_degradation records exactly one warning call to
send_alert when accuracy is below the threshold, carrying the accuracy,
the threshold and the signed gap in the .2 percent format, and records no
call otherwise; at accuracy 0.78 against threshold 0.85 the one alert has
Gap equal to "-7.00%", and at accuracy 0.90 no alert fires. -/
theorem alert_model_degradation_spec :
    (∀ a t : ℚ, a < t →
      alert_model_degradation a t =
        [{ title := "Model Performance Degradation"
           message := "Model accuracy (" ++ formatPercent2 a ++
             ") dropped below threshold (" ++ formatPercent2 t ++ ")"
           level := "warning"
           metrics := some [("Current Accuracy", formatPercent2 a),
                            ("Threshold", formatPercent2 t),
                            ("Gap", formatPercent2 (a - t))] }]) ∧
    (∀ a t : ℚ, ¬ a < t → alert_model_degradation a t = []) ∧
    ((alert_model_degradation (78 / 100) (85 / 100)).length = 1 ∧
      ∀ c ∈ alert_model_degradation (78 / 100) (85 / 100),
        c.level = "warning" ∧
          ∃ m, c.metrics = some m ∧ m.lookup "Gap" = some "-7.00%") ∧
    alert_model_degradation (90 / 100) (85 / 100) = [] := by
  have h1 : (78 : ℚ) / 100 < 85 / 100 := by norm_num
  have h2 : ¬ (90 : ℚ) / 100 < 85 / 100 := by norm_num
  refine ⟨?_, ?_, ⟨?_, ?_⟩, ?_⟩
  · intro a t h
    simp [alert_model_degradation, h]
  · intro a t h
    simp [alert_model_degradation, h]
  · simp [alert_model_degradation, h1]
  · intro c hc
    simp only [alert_model_degradation, if_pos h1, List.mem_singleton] at hc
    subst hc
    exact ⟨rfl, _, rfl, by simp [List.lookup, gap_str]⟩
  · simp [alert_model_degradation, h2]

/-- C3 witness: the single warning call recorded at accuracy 0.78 and
threshold 0.85. -/
theorem alert_model_degradation_spec_witness :
    alert_model_degradation ((78 : ℚ) / 100) ((85 : ℚ) / 100) =
      [{ title := "Model Performance Degradation"
         message := "Model accuracy (" ++ formatPercent2 ((78 : ℚ) / 100) ++
           ") dropped below threshold (" ++ formatPercent2 ((85 : ℚ) / 100) ++ ")"
         level := "warning"
         metrics := some [("Current Accuracy", formatPercent2 ((78 : ℚ) / 100)),
                          ("Threshold", formatPercent2 ((85 : ℚ) / 100)),
                          ("Gap", formatPercent2 ((78 : ℚ) / 100 - (85 : ℚ) / 100))] }] :=
  alert_model_degradation_spec.1 (78 / 100) (85 / 100) (by norm_num)

/-- C4: alert_high_latency records exactly one error call to send_alert
when latency_ms exceeds the threshold, carrying the latency, the threshold
and the slowdown ratio rendered as x followed by the ratio with one
decimal place, and records no call otherwise; at 3000 against 2000 the one
alert has ratio field "x1.5", and at 1500 no alert fires. -/
theorem alert_high_latency_spec :
    (∀ l t : ℚ, l > t →
      alert_high_latency l t =
        [{ title := "High Inference Latency"
           message := "Inference taking " ++ pyStr l ++ "ms (threshold: " ++ pyStr t ++ "ms)"
           level := "error"
           metrics := some [("Latency", formatFixed 0 l ++ "ms"),
                            ("Threshold", formatFixed 0 t ++ "ms"),
                            ("Slowdown", "x" ++ formatFixed 1 (l / t))] }]) ∧
    (∀ l t : ℚ, ¬ l > t → alert_high_latency l t = []) ∧
    ((alert_high_latency 3000 2000).length = 1 ∧
      ∀ c ∈ alert_high_latency 3000 2000,
        c.level = "error" ∧
          ∃ m, c.metrics = some m ∧ m.lookup "Slowdown" = some "x1.5") ∧
    alert_high_latency 1500 2000 = [] := by
  have h1 : (3000 : ℚ) > 2000 := by norm_num
  have h2 : ¬ (1500 : ℚ) > 2000 := by norm_num
  refine ⟨?_, ?_, ⟨?_, ?_⟩, ?_⟩
  · intro l t h
    simp [alert_high_latency, h]
  · intro l t h
    simp [alert_high_latency, h]
  · simp [alert_high_latency, h1]
  · intro c hc
    simp only [alert_high_latency, if_pos h1, List.mem_singleton] at hc
    subst hc
    exact ⟨rfl, _, rfl, by simp [List.lookup, ratio_str]⟩
  · simp [alert_high_latency, h2]

/-- C4 witness: the single error call recorded at latency 3000 and
threshold 2000. -/
theorem alert_high_latency_spec_witness :
    alert_high_latency (3000 : ℚ) (2000 : ℚ) =
      [{ title := "High Inference Latency"
         message := "Inference taking " ++ pyStr (3000 : ℚ) ++ "ms (threshold: " ++
           pyStr (2000 : ℚ) ++ "ms)"
         level := "error"
         metrics := some [("Latency", formatFixed 0 (3000 : ℚ) ++ "ms"),
                          ("Threshold", formatFixed 0 (2000 : ℚ) ++ "ms"),
                          ("Slowdown", "x" ++ formatFixed 1 ((3000 : ℚ) / 2000))] }] :=
  alert_high_latency_spec.1 3000 2000 (by norm_num)

/-- C5: the embed color is 3447003 for info, 16776960 for warning,
15158332 for error, 10038562 for critical, and for any other level string
the lookup falls back to the info color 3447003; send_alert still returns
normally on an unrecognized severity. -/
theorem send_alert_color_spec :
    colorsGet "info" = 3447003 ∧ colorsGet "warning" = 16776960 ∧
    colorsGet "error" = 15158332 ∧ colorsGet "critical" = 10038562 ∧
    (∀ level : String, level ∉ ["info", "warning", "error", "critical"] →
      colorsGet level = 3447003) ∧
    (∀ (n : DiscordNotifier) (title message level utcNow : String)
        (metrics : Option (List (String × String))) (t : TransportBehavior),
      n.enabled = true →
        (n.send_alert title message level metrics utcNow t).raised = false ∧
        ∀ p ∈ (n.send_alert title message level metrics utcNow t).networkCalls,
          ∀ e ∈ p.embeds, e.color = colorsGet level) := by
  refine ⟨by decide, by decide, by decide, by decide, ?_, ?_⟩
  · intro level h
    simp only [List.mem_cons, List.not_mem_nil, or_false, not_or] at h
    obtain ⟨h1, h2, h3, h4⟩ := h
    have e1 : (level == "info") = false := beq_eq_false_iff_ne.mpr h1
    have e2 : (level == "warning") = false := beq_eq_false_iff_ne.mpr h2
    have e3 : (level == "error") = false := beq_eq_false_iff_ne.mpr h3
    have e4 : (level == "critical") = false := beq_eq_false_iff_ne.mpr h4
    simp [colorsGet, colors, List.lookup, e1, e2, e3, e4]
  · intro n title message level utcNow metrics t h
    constructor
    · unfold DiscordNotifier.send_alert
      rw [h]
      cases ht : t.raises <;> simp [ht]
    · intro p hp e he
      rw [send_alert_networkCalls n title message level metrics utcNow t h] at hp
      simp only [List.mem_singleton] at hp
      subst hp
      simp only [List.mem_singleton] at he
      subst he
      exact buildEmbed_color title message level utcNow metrics

/-- C5 witness: an unrecognized severity string falls back to the info
color. -/
theorem send_alert_color_spec_witness :
    colorsGet "debug" = 3447003 :=
  send_alert_color_spec.2.2.2.2.1 "debug" (by decide)

/-- C6: each of the three always-fire helpers records exactly one
send_alert call per invocation, unconditionally: the database-lost notice
with severity critical and fixed Service, Impact and Action fields; the
deployment notice with severity info and the version, fixed status text
and local timestamp fields; and the prediction notice with severity info
and no metrics. -/
theorem always_fire_helpers_spec :
    (alert_database_disconnected.length = 1 ∧
      ∀ c ∈ alert_database_disconnected, c.level = "critical" ∧
        c.metrics = some [("Service", "PostgreSQL"),
                          ("Impact", "❌ Feedback storage offline"),
                          ("Action", "Check docker logs cv_postgres")]) ∧
    (∀ version localNow : String,
      (alert_deployment_success version localNow).length = 1 ∧
        ∀ c ∈ alert_deployment_success version localNow, c.level = "info" ∧
          c.metrics = some [("Version", version), ("Status", "✅ Running"),
                            ("Timestamp", localNow)]) ∧
    (alert_new_prediction.length = 1 ∧
      ∀ c ∈ alert_new_prediction, c.level = "info" ∧ c.metrics = none) := by
  refine ⟨⟨rfl, ?_⟩, fun version localNow => ⟨rfl, ?_⟩, rfl, ?_⟩ <;>
  · intro c hc
    simp only [alert_database_disconnected, alert_deployment_success,
      alert_new_prediction, List.mem_singleton] at hc
    subst hc
    exact ⟨rfl, rfl⟩

/-- C6 witness: the one recorded prediction notice has severity info and
no metrics. -/
theorem always_fire_helpers_spec_witness :
    (AlertCall.mk "New project" "Le modèle a été utilisé pour une prediction"
        "info" none).level = "info" ∧
    (AlertCall.mk "New project" "Le modèle a été utilisé pour une prediction"
        "info" none).metrics = none :=
  always_fire_helpers_spec.2.2.2
    (AlertCall.mk "New project" "Le modèle a été utilisé pour une prediction" "info" none)
    (by decide)

/-- C7: enabled is true exactly when the configured endpoint string is
present and non-empty; construction stores the endpoint unchanged, and
send_alert leaves the instance, hence both attributes, unchanged. -/
theorem notifier_enabled_invariant :
    (∀ url : Option String,
      (DiscordNotifier.init url).enabled = true ↔ ∃ s, url = some s ∧ s ≠ "") ∧
    (∀ url : Option String, (DiscordNotifier.init url).webhook_url = url) ∧
    (∀ (n : DiscordNotifier) (title message level utcNow : String)
        (metrics : Option (List (String × String))) (t : TransportBehavior),
      (n.send_alert title message level metrics utcNow t).finalSelf = n) := by
  refine ⟨?_, fun url => rfl, ?_⟩
  · intro url
    cases url with
    | none => simp [DiscordNotifier.init]
    | some s => simp [DiscordNotifier.init]
  · intro n title message level utcNow metrics t
    unfold DiscordNotifier.send_alert
    cases hn : n.enabled <;> cases ht : t.raises <;> simp [hn, ht]

/-- C7 witness: a present non-empty endpoint yields an enabled instance. -/
theorem notifier_enabled_invariant_witness :
    (DiscordNotifier.init (some "https://discord.example/webhooks/2/t")).enabled = true :=
  (notifier_enabled_invariant.1 (some "https://discord.example/webhooks/2/t")).mpr
    ⟨"https://discord.example/webhooks/2/t", rfl, by decide⟩

/-- C8: update_db_status writes 1 for a connected report and 0 for a
disconnected one, ignoring the previous gauge value, so after any call
sequence the gauge holds the value of the last call alone; in particular
True then False leaves the gauge at exactly 0. -/
theorem update_db_status_spec :
    (∀ g : ℚ, update_db_status true g = 1) ∧
    (∀ g : ℚ, update_db_status false g = 0) ∧
    (∀ (g : ℚ) (calls : List Bool) (b : Bool),
      (calls ++ [b]).foldl (fun acc c => update_db_status c acc) g =
        if b then 1 else 0) ∧
    (∀ g : ℚ, update_db_status false (update_db_status true g) = 0) := by
  refine ⟨fun g => rfl, fun g => rfl, ?_, fun g => rfl⟩
  intro g calls b
  simp [List.foldl_append, update_db_status]

/-- C8 witness: the gauge after True then False, starting from 0. -/
theorem update_db_status_spec_witness :
    update_db_status false (update_db_status true 0) = 0 :=
  update_db_status_spec.2.2.2 0

/-- C9 counterexample: no instrument created at module initialization is
named "predictions_total" as the claim states; the total-predictions
counter is registered under the name "cv_predictions_total". -/
theorem instruments_unprefixed_name_counterexample :
    (¬ ∃ i ∈ moduleInstruments, i.name = "predictions_total") ∧
    cv_predictions_total.name = "cv_predictions_total" := by
  exact ⟨by decide, rfl⟩

/-- C9 (amended): module initialization creates exactly five instruments,
each exactly once, with the stated kinds, labels and buckets but under
cv_-prefixed registered names: cv_database_connected (gauge, written only
with 0 or 1), cv_predictions_total (counter, no labels),
cv_predictions_by_class_total (counter, label label),
cv_prediction_latency_seconds (histogram, no labels, bucket boundaries
exactly 0.05, 0.1, 0.2, 0.5, 1, 2, 5) and cv_feedback_negative_total
(counter, label label). -/
theorem instruments_spec :
    moduleInstruments.length = 5 ∧
    (moduleInstruments.map Instrument.name).Nodup ∧
    moduleInstruments.map Instrument.name =
      ["cv_database_connected", "cv_predictions_total",
       "cv_predictions_by_class_total", "cv_prediction_latency_seconds",
       "cv_feedback_negative_total"] ∧
    moduleInstruments.map Instrument.kind =
      [.gauge, .counter, .counter, .histogram, .counter] ∧
    moduleInstruments.map Instrument.labels = [[], [], ["label"], [], ["label"]] ∧
    moduleInstruments.map Instrument.buckets =
      [none, none, none, some [0.05, 0.1, 0.2, 0.5, 1, 2, 5], none] ∧
    (∀ (b : Bool) (g : ℚ), update_db_status b g = 0 ∨ update_db_status b g = 1) := by
  refine ⟨rfl, by decide, by decide, by decide, by decide, rfl, ?_⟩
  intro b g
  cases b
  · exact Or.inl rfl
  · exact Or.inr rfl

theorem buildEmbed_fields_none (title message level utcNow : String) :
    (buildEmbed title message level utcNow none).fields = none := rfl

theorem buildEmbed_fields_nil (title message level utcNow : String) :
    (buildEmbed title message level utcNow (some [])).fields = none := rfl

theorem buildEmbed_fields_nonempty (title message level utcNow : String)
    (m : List (String × String)) (hm : m ≠ []) :
    (buildEmbed title message level utcNow (some m)).fields =
      some (m.map fun kv => ⟨kv.1, kv.2, true⟩) := by
  cases m with
  | nil => exact absurd rfl hm
  | cons a l => simp [buildEmbed]

/-- C10: on an enabled dispatcher the posted embed has no fields entry at
all when metrics is None or the empty mapping; for a non-empty mapping
the fields list has one name, value, inline triple per entry, with inline
set. -/
theorem embed_fields_spec (n : DiscordNotifier) (title message level utcNow : String)
    (t : TransportBehavior) (h : n.enabled = true) :
    (∀ p ∈ (n.send_alert title message level none utcNow t).networkCalls,
      ∀ e ∈ p.embeds, e.fields = none) ∧
    (∀ p ∈ (n.send_alert title message level (some []) utcNow t).networkCalls,
      ∀ e ∈ p.embeds, e.fields = none) ∧
    (∀ m : List (String × String), m ≠ [] →
      ∀ p ∈ (n.send_alert title message level (some m) utcNow t).networkCalls,
        ∀ e ∈ p.embeds,
          e.fields = some (m.map fun kv => ⟨kv.1, kv.2, true⟩)) := by
  refine ⟨?_, ?_, ?_⟩
  · intro p hp e he
    rw [send_alert_networkCalls n title message level none utcNow t h] at hp
    simp only [List.mem_singleton] at hp
    subst hp
    simp only [List.mem_singleton] at he
    subst he
    exact buildEmbed_fields_none title message level utcNow
  · intro p hp e he
    rw [send_alert_networkCalls n title message level (some []) utcNow t h] at hp
    simp only [List.mem_singleton] at hp
    subst hp
    simp only [List.mem_singleton] at he
    subst he
    exact buildEmbed_fields_nil title message level utcNow
  · intro m hm p hp e he
    rw [send_alert_networkCalls n title message level (some m) utcNow t h] at hp
    simp only [List.mem_singleton] at hp
    subst hp
    simp only [List.mem_singleton] at he
    subst he
    exact buildEmbed_fields_nonempty title message level utcNow m hm

/-- C10 witness: a one-entry mapping yields exactly one inline field
triple in the posted embed. -/
theorem embed_fields_spec_witness :
    (buildEmbed "T" "M" "info" "ts" (some [("Accuracy", "78%")])).fields =
      some [⟨"Accuracy", "78%", true⟩] :=
  (embed_fields_spec (DiscordNotifier.init (some "u")) "T" "M" "info" "ts"
      (.response 204) (by decide)).2.2 [("Accuracy", "78%")] (by decide)
    { username := "MLOps Bot"
      embeds := [buildEmbed "T" "M" "info" "ts" (some [("Accuracy", "78%")])] }
    (by decide)
    (buildEmbed "T" "M" "info" "ts" (some [("Accuracy", "78%")]))
    (List.mem_singleton.mpr rfl)

end CatsDogs
